import Mathlib

/-!
Verification of the model-invocation layer of the `no-news` repository
(`_openai.py`, `_anthropic.py`, `_aws.py`, `_models.py`, `_connpool.py`).

The Python adapters are embedded as pure Lean functions.  Stateful pieces
(the process-wide token counters, the AWS connection-pool queue) are passed
explicitly as values; the nondeterministic outside world (which attempt of a
chat call succeeds, fails transiently, or fails fatally, and what the backend
returns) is supplied as an explicit list of attempt outcomes.  Awaiting a
rate limiter, issuing a request and sleeping between retries are recorded as
events in a trace so that temporal claims about acquisition order can be
stated.
-/

namespace NoNews

/-- Python exceptions that the embedded code can raise, with the payload each
carries in the source. -/
inductive PyError where
  | valueError (msg : String)
  | keyError (key : String)
  | runtimeError (msg : String)
  | attributeError (attr : String)
  | indexError (idx : Nat)
  deriving Repr, DecidableEq

/-- The pair of module-global token counters (`PROMPT_TOKENS`,
`RESPONSE_TOKENS`) that each of `_openai.py`, `_aws.py` and `_anthropic.py`
keeps at module level. -/
structure Counters where
  prompt_tokens : Nat
  response_tokens : Nat
  deriving Repr, DecidableEq

/-- Shared by all three adapter modules: `MAX_RETRIES = 3`. -/
def MAX_RETRIES : Nat := 3

/-- Observable events of one chat call, in order: `acquire n` is
`await limiter.acquire(tokens)` on the token-rate limiter for `n` units,
`attempt` is one dispatch of the backend request, `sleep` is the backoff
sleep in the transient-error handler. -/
inductive Event where
  | acquire (amount : Nat)
  | attempt
  | sleep
  deriving Repr, DecidableEq

/-- Outcome of one backend dispatch, supplied by the environment: `ok resp`
models the request returning a (non-`None`, truthy) response object `resp`;
`transient` models the provider-classified retryable exception
(`openai.OpenAIError`, `anthropic.APIError`, `botocore ClientError`);
`fatal msg` models any other exception, which the source wraps at once into
`RuntimeError(f"Failed to connect to \x7bmodel\x7d: \x7be\x7d")` — `msg`
stands for that already-wrapped message. -/
inductive AttemptOutcome (α : Type) where
  | ok (resp : α)
  | transient
  | fatal (msg : String)

/-- Result of the retry loop: the response that broke out of the loop, the
`while`/`else` exhaustion with the final value of the `retries` counter, or
a fatal error. -/
inductive ChatOutcome (α : Type) where
  | success (resp : α)
  | exhausted (model : String) (retries : Nat)
  | fatal (msg : String)

/-- Message of the `RuntimeError` raised by the `while ... else` clause:
`f"Failed to connect to \x7bmodel\x7d after \x7bretries\x7d retries"`. -/
def exhaustedMessage (model : String) (retries : Nat) : String :=
  "Failed to connect to " ++ model ++ " after " ++ toString retries ++ " retries"

/-- The retry loop shared verbatim by the three adapters:

    retries = 0
    while retries < MAX_RETRIES:
        await limiter.acquire(tokens)
        try:
            response = ...send...
            if response: break
        except TransientProviderException:
            retries += 1
            await asyncio.sleep(wait_time); wait_time *= 2
        except Exception as e:
            raise RuntimeError(f"Failed to connect to ...: \x7be\x7d") from e
    else:
        raise RuntimeError(f"Failed to connect to ... after \x7bretries\x7d retries")

The loop is driven by the list of attempt outcomes; an empty list before the
loop finishes yields `none` (the environment gave no verdict).  Responses in
`ok` are taken truthy/non-`None`, as the SDK response objects are. -/
def retryLoopGo {α : Type} (model : String) (cost : Nat)
    (outs : List (AttemptOutcome α)) (retries : Nat) :
    List Event × Option (ChatOutcome α) :=
  if retries < MAX_RETRIES then
    match outs with
    | [] => ([], none)
    | AttemptOutcome.ok r :: _ =>
        ([Event.acquire cost, Event.attempt], some (ChatOutcome.success r))
    | AttemptOutcome.transient :: rest =>
        let p := retryLoopGo model cost rest (retries + 1)
        (Event.acquire cost :: Event.attempt :: Event.sleep :: p.1, p.2)
    | AttemptOutcome.fatal msg :: _ =>
        ([Event.acquire cost, Event.attempt], some (ChatOutcome.fatal msg))
  else
    ([], some (ChatOutcome.exhausted model retries))

/-- Number of `attempt` events in a trace. -/
def countAttempts : List Event → Nat
  | [] => 0
  | Event.attempt :: rest => countAttempts rest + 1
  | _ :: rest => countAttempts rest

/-- Checks that a trace consists of attempts each immediately preceded by
exactly one acquisition of `cost` units (with backoff sleeps in between):
no attempt without its acquisition, no stray acquisition. -/
def wellAcquired (cost : Nat) : List Event → Bool
  | [] => true
  | Event.acquire c :: Event.attempt :: rest => c == cost && wellAcquired cost rest
  | Event.sleep :: rest => wellAcquired cost rest
  | _ => false

/-- Checks that every `acquire` event in a trace is for exactly `cost`
units. -/
def acquiresOnly (cost : Nat) : List Event → Bool
  | [] => true
  | Event.acquire c :: rest => c == cost && acquiresOnly cost rest
  | _ :: rest => acquiresOnly cost rest

/-- A chat-completions message as built in `_openai.py` lines 63-67 (role and
content). -/
structure Message where
  role : String
  content : String
  deriving Repr, DecidableEq

/-- The message list `_openai.chat` sends (`_openai.py` lines 63-67): both
the system text and the prompt are sent with role `"system"`. -/
def openaiMessages (system prompt : String) : List Message :=
  [{ role := "system", content := system },
   { role := "system", content := prompt }]

/-- Usage block of an OpenAI response (`response.usage.prompt_tokens`,
`response.usage.completion_tokens`).  The values are modelled as the
integers the API contract guarantees, so the source's `isinstance(..., int)`
fallback branch is unreachable and not modelled. -/
structure OpenAIUsage where
  prompt_tokens : Nat
  completion_tokens : Nat
  deriving Repr, DecidableEq

/-- An OpenAI chat response as observed by `_openai.chat`: `usage = none`
models a response on which `response.usage.prompt_tokens` raises
`AttributeError` (usage block absent or `None`); `choices` lists
`choices[i].message.content`. -/
structure OpenAIResponse where
  usage : Option OpenAIUsage
  choices : List String
  deriving Repr, DecidableEq

/-- Token estimate of `_openai.chat` (`_openai.py` lines 49-51):
`len(encoding.encode(system)) + len(encoding.encode(prompt))`, with the
tiktoken encoder passed in abstractly. -/
def openaiEstimatedTokens (encode : String → List Nat) (system prompt : String) : Nat :=
  (encode system).length + (encode prompt).length

/-- Post-loop processing of `_openai.chat` (`_openai.py` lines 88-105): read
the usage counters inside `try ... except AttributeError` — on success add
them to the module globals, on `AttributeError` log a warning (the returned
`Bool`) and leave the counters untouched — then return
`response.choices[0].message.content`.  In the source the increments happen
before the `choices[0]` access, so on the (unmodelled-state) `IndexError`
path the increments are discarded here; no claim observes counters of a
failed call. -/
def openaiPostProcess (st : Counters) (r : OpenAIResponse) :
    Except PyError (String × Counters × Bool) :=
  let step : Counters × Bool :=
    match r.usage with
    | some u =>
        ({ prompt_tokens := st.prompt_tokens + u.prompt_tokens,
           response_tokens := st.response_tokens + u.completion_tokens }, false)
    | none => (st, true)
  match r.choices.head? with
  | some content => Except.ok (content, step.1, step.2)
  | none => Except.error (PyError.indexError 0)

/-- The whole of `_openai.chat` on the token-limiter/retry/usage level: the
trace of limiter acquisitions and attempts, and (when the outcome list
determines it) either the returned text with the updated counters and the
missing-usage warning flag, or the raised error. -/
def openaiChat (encode : String → List Nat) (model system prompt : String)
    (st : Counters) (outcomes : List (AttemptOutcome OpenAIResponse)) :
    List Event × Option (Except PyError (String × Counters × Bool)) :=
  let tokens := openaiEstimatedTokens encode system prompt
  let p := retryLoopGo model tokens outcomes 0
  (p.1, p.2.map fun o =>
    match o with
    | ChatOutcome.success r => openaiPostProcess st r
    | ChatOutcome.exhausted m n => Except.error (PyError.runtimeError (exhaustedMessage m n))
    | ChatOutcome.fatal msg => Except.error (PyError.runtimeError msg))

/-- The dispatch `ModelContext.chat` performs for an OpenAI-service context
(`_models.py` lines 236-249): when `json_start` is truthy it logs
`"json_start not supported for OpenAI"` (the `Bool` component) and does not
forward it; the components are the warning flag, the message list sent, and
the result of `_openai.chat`. -/
def modelContextChatOpenAI (encode : String → List Nat)
    (full_model system prompt json_start : String) (st : Counters)
    (outcomes : List (AttemptOutcome OpenAIResponse)) :
    Bool × List Message × (List Event × Option (Except PyError (String × Counters × Bool))) :=
  (!(json_start == ""), openaiMessages system prompt,
   openaiChat encode full_model system prompt st outcomes)

/-- One content block of an Anthropic response (`response.content[i].text`). -/
structure AnthropicBlock where
  text : String
  deriving Repr, DecidableEq

/-- Usage block of an Anthropic response (`response.usage.input_tokens`,
`response.usage.output_tokens`). -/
structure AnthropicUsage where
  input_tokens : Nat
  output_tokens : Nat
  deriving Repr, DecidableEq

/-- An Anthropic response as observed by `_anthropic.chat`: `usage = none`
models a response on which `response.usage.input_tokens` raises
`AttributeError`. -/
structure AnthropicResponse where
  usage : Option AnthropicUsage
  content : List AnthropicBlock
  deriving Repr, DecidableEq

/-- Token estimate of `_anthropic.chat` (`_anthropic.py` lines 39-40):
`(len(system) + len(prompt) + 4) // 5`. -/
def anthropicEstimatedTokens (system prompt : String) : Nat :=
  (system.length + prompt.length + 4) / 5

/-- Post-loop processing of `_anthropic.chat` (`_anthropic.py` lines 81-87):
the usage counters are read with NO try/except — a response without usage
fields raises an uncaught `AttributeError` — then
`json_start + response.content[0].text` is returned. -/
def anthropicPostProcess (json_start : String) (st : Counters)
    (r : AnthropicResponse) : Except PyError (String × Counters) :=
  match r.usage with
  | none => Except.error (PyError.attributeError "usage")
  | some u =>
      let st1 : Counters :=
        { prompt_tokens := st.prompt_tokens + u.input_tokens,
          response_tokens := st.response_tokens + u.output_tokens }
      match r.content.head? with
      | some block => Except.ok (json_start ++ block.text, st1)
      | none => Except.error (PyError.indexError 0)

/-- The whole of `_anthropic.chat` on the token-limiter/retry/usage level. -/
def anthropicChat (model system prompt json_start : String) (st : Counters)
    (outcomes : List (AttemptOutcome AnthropicResponse)) :
    List Event × Option (Except PyError (String × Counters)) :=
  let tokens := anthropicEstimatedTokens system prompt
  let p := retryLoopGo model tokens outcomes 0
  (p.1, p.2.map fun o =>
    match o with
    | ChatOutcome.success r => anthropicPostProcess json_start st r
    | ChatOutcome.exhausted m n => Except.error (PyError.runtimeError (exhaustedMessage m n))
    | ChatOutcome.fatal msg => Except.error (PyError.runtimeError msg))

/-- One block of the parsed AWS Bedrock response body: the source reads it
with `content.get("type", "")` and `content.get("text", "")`, so both keys
are optional. -/
structure AWSContentBlock where
  ctype : Option String
  text : Option String
  deriving Repr, DecidableEq

/-- A parsed AWS Bedrock response as observed by `_aws.chat`:
`usage = none` models a body where `response["usage"]["input_tokens"]`
raises `KeyError` (caught); `content = none` models a missing `"content"`
key, read with `response.get("content", [])`. -/
structure AWSResponse where
  usage : Option (Nat × Nat)
  content : Option (List AWSContentBlock)
  deriving Repr, DecidableEq

/-- Token estimate of `_aws.chat` (`_aws.py` lines 67-68):
`(len(system) + len(prompt) + len(json_start) + 4) // 5` — it includes the
assistant-prefix length, unlike the Anthropic adapter. -/
def awsEstimatedTokens (system prompt json_start : String) : Nat :=
  (system.length + prompt.length + json_start.length + 4) / 5

/-- Text extraction of `_aws.chat` (`_aws.py` lines 115-125):
`" ".join([c.get("text","") for c in contents if c.get("type","") == "text"]).strip()`. -/
def awsExtractText (blocks : List AWSContentBlock) : String :=
  (String.intercalate " "
    ((blocks.filter fun b => b.ctype.getD "" == "text").map fun b => b.text.getD "")).trim

/-- Post-loop processing of `_aws.chat` (`_aws.py` lines 105-125): the usage
counters are added inside `try ... except KeyError` (a warning, the `Bool`,
is logged on the missing key and the counters stay untouched), then
`json_start + <extracted text>` is returned; this path never raises. -/
def awsPostProcess (json_start : String) (st : Counters) (r : AWSResponse) :
    String × Counters × Bool :=
  let step : Counters × Bool :=
    match r.usage with
    | some (i, o) =>
        ({ prompt_tokens := st.prompt_tokens + i,
           response_tokens := st.response_tokens + o }, false)
    | none => (st, true)
  (json_start ++ awsExtractText (r.content.getD []), step.1, step.2)

/-- The whole of `_aws.chat` on the token-limiter/retry/usage level.  A
successful attempt carries `some r` for a JSON-decodable body parsed as `r`,
and `none` for a body on which `json.loads` fails, which the source turns
into `RuntimeError("Ill-formatted Claude response: ...")`. -/
def awsChat (model system prompt json_start : String) (st : Counters)
    (outcomes : List (AttemptOutcome (Option AWSResponse))) :
    List Event × Option (Except PyError (String × Counters × Bool)) :=
  let tokens := awsEstimatedTokens system prompt json_start
  let p := retryLoopGo model tokens outcomes 0
  (p.1, p.2.map fun o =>
    match o with
    | ChatOutcome.success (some r) => Except.ok (awsPostProcess json_start st r)
    | ChatOutcome.success none =>
        Except.error (PyError.runtimeError "Ill-formatted Claude response")
    | ChatOutcome.exhausted m n => Except.error (PyError.runtimeError (exhaustedMessage m n))
    | ChatOutcome.fatal msg => Except.error (PyError.runtimeError msg))

/-- An `aiolimiter.AsyncLimiter` instance as constructed at module level in
`_models.py`.  Python object identity matters for the sharing claims, so
each `AsyncLimiter(...)` constructor call in the source is given a distinct
`id`, numbered in source order; two table entries are the same instance
exactly when they carry the same `id`. -/
structure AsyncLimiter where
  id : Nat
  max_rate : Nat
  time_period : Nat
  deriving Repr, DecidableEq

/-- The shared request limiter `gpt_3_5_turbo_rl = AsyncLimiter(500, 3)`
(`_models.py` line 38). -/
def gpt_3_5_turbo_rl : AsyncLimiter := { id := 0, max_rate := 500, time_period := 3 }

/-- The `RATE_LIMITERS` table (`_models.py` lines 40-60): per-service,
per-alias request-count limiters.  `gpt-3.5` and the six fine-tuned aliases
all map to the single shared `gpt_3_5_turbo_rl` instance. -/
def RATE_LIMITERS (service model : String) : Option AsyncLimiter :=
  match service, model with
  | "OpenAI", "gpt-4" => some { id := 1, max_rate := 250, time_period := 3 }
  | "OpenAI", "gpt-3.5" => some gpt_3_5_turbo_rl
  | "OpenAI", "ft-events-1" => some gpt_3_5_turbo_rl
  | "OpenAI", "ft-events-2" => some gpt_3_5_turbo_rl
  | "OpenAI", "ft-events-3" => some gpt_3_5_turbo_rl
  | "OpenAI", "ft-classify-1" => some gpt_3_5_turbo_rl
  | "OpenAI", "ft-classify-2" => some gpt_3_5_turbo_rl
  | "OpenAI", "ft-classify-3" => some gpt_3_5_turbo_rl
  | "AWS", "sonnet" => some { id := 2, max_rate := 50, time_period := 6 }
  | "AWS", "haiku" => some { id := 3, max_rate := 100, time_period := 6 }
  | "Anthropic", "opus" => some { id := 4, max_rate := 200, time_period := 6 }
  | "Anthropic", "sonnet" => some { id := 5, max_rate := 200, time_period := 6 }
  | "Anthropic", "haiku" => some { id := 6, max_rate := 200, time_period := 6 }
  | _, _ => none

/-- The shared token limiter `gpt_3_5_turbo = AsyncLimiter(500_000, 15)`
(`_models.py` line 65). -/
def gpt_3_5_turbo : AsyncLimiter := { id := 7, max_rate := 500000, time_period := 15 }

/-- The `TOKEN_LIMITERS` table (`_models.py` lines 67-87): per-service,
per-alias token-count limiters.  The Anthropic entries omit the period
argument, so they use aiolimiter's default `time_period = 60`. -/
def TOKEN_LIMITERS (service model : String) : Option AsyncLimiter :=
  match service, model with
  | "OpenAI", "gpt-4" => some { id := 8, max_rate := 150000, time_period := 15 }
  | "OpenAI", "gpt-3.5" => some gpt_3_5_turbo
  | "OpenAI", "ft-events-1" => some gpt_3_5_turbo
  | "OpenAI", "ft-events-2" => some gpt_3_5_turbo
  | "OpenAI", "ft-events-3" => some gpt_3_5_turbo
  | "OpenAI", "ft-classify-1" => some gpt_3_5_turbo
  | "OpenAI", "ft-classify-2" => some gpt_3_5_turbo
  | "OpenAI", "ft-classify-3" => some gpt_3_5_turbo
  | "AWS", "sonnet" => some { id := 9, max_rate := 100000, time_period := 6 }
  | "AWS", "haiku" => some { id := 10, max_rate := 200000, time_period := 6 }
  | "Anthropic", "opus" => some { id := 11, max_rate := 200000, time_period := 60 }
  | "Anthropic", "sonnet" => some { id := 12, max_rate := 160000, time_period := 60 }
  | "Anthropic", "haiku" => some { id := 13, max_rate := 80000, time_period := 60 }
  | _, _ => none

/-- The service keys of the `MODELS` catalog (`_models.py` lines 13-33);
`calculate_cost` and `ModelContext.__init__` guard `service not in MODELS`
against exactly these. -/
def MODELS_services : List String := ["OpenAI", "AWS", "Anthropic"]

/-- The model aliases of each service in the `MODELS` catalog. -/
def MODELS_aliases (service : String) : List String :=
  if service == "OpenAI" then
    ["gpt-4", "gpt-3.5", "ft-events-1", "ft-events-2", "ft-events-3",
     "ft-classify-1", "ft-classify-2", "ft-classify-3"]
  else if service == "AWS" then ["sonnet", "haiku"]
  else if service == "Anthropic" then ["opus", "sonnet", "haiku"]
  else []

/-- The aliases that share the two module-level `gpt_3_5_turbo` limiter
instances in `_models.py`. -/
def sharedOpenAIAliases : List String :=
  ["gpt-3.5", "ft-events-1", "ft-events-2", "ft-events-3",
   "ft-classify-1", "ft-classify-2", "ft-classify-3"]

/-- The static `MODEL_COSTS` price table (`_models.py` lines 100-158), as
`(prompt rate, response rate)` in dollars per million tokens.  Its service
keys coincide with those of `MODELS`, so under the `Unknown service` guard
only the model-level lookup can fail. -/
def MODEL_COSTS (service model : String) : Option (ℚ × ℚ) :=
  match service, model with
  | "OpenAI", "gpt-4" => some (10, 30)
  | "OpenAI", "gpt-3.5" => some (1 / 2, 3 / 2)
  | "OpenAI", "ft-events-1" => some (3, 6)
  | "OpenAI", "ft-events-2" => some (3, 6)
  | "OpenAI", "ft-events-3" => some (3, 6)
  | "OpenAI", "ft-classify-1" => some (3, 6)
  | "OpenAI", "ft-classify-2" => some (3, 6)
  | "OpenAI", "ft-classify-3" => some (3, 6)
  | "AWS", "sonnet" => some (3, 15)
  | "AWS", "haiku" => some (1 / 4, 5 / 4)
  | "Anthropic", "opus" => some (15, 75)
  | "Anthropic", "sonnet" => some (3, 15)
  | "Anthropic", "haiku" => some (1 / 4, 5 / 4)
  | _, _ => none

/-- The process-wide usage counters `calculate_cost` reads: one
`(PROMPT_TOKENS, RESPONSE_TOKENS)` pair per adapter module. -/
structure UsageState where
  openai : Counters
  aws : Counters
  anthropic : Counters
  deriving Repr, DecidableEq

/-- The per-service counter selection of `calculate_cost` (`_models.py`
lines 166-175). -/
def countersFor (st : UsageState) (service : String) : Counters :=
  if service == "OpenAI" then st.openai
  else if service == "AWS" then st.aws
  else st.anthropic

/-- Nearest integer to a rational, ties to even — the rounding CPython's
fixed-point float formatting applies to the decimal digits. -/
def roundHalfEven (q : ℚ) : Int :=
  let f := ⌊q⌋
  let frac := q - f
  if frac < 1 / 2 then f
  else if 1 / 2 < frac then f + 1
  else if f % 2 = 0 then f else f + 1

/-- Rendering of `f"\x7bcost:.2f\x7d"` for the exact rational cost: two
decimal digits, rounding half to even.  (CPython formats the nearest binary
double; on this price table's values the two agree.) -/
def format2 (q : ℚ) : String :=
  let cents := roundHalfEven (100 * q)
  let sign := if cents < 0 then "-" else ""
  let a := cents.natAbs
  sign ++ toString (a / 100) ++ "." ++ (if a % 100 < 10 then "0" else "") ++ toString (a % 100)

/-- The summary string `calculate_cost` returns (`_models.py` lines
184-188). -/
def costSummary (prompt_tokens response_tokens : Nat) (cost : ℚ) : String :=
  "prompt_tokens: " ++ toString prompt_tokens ++ "\t" ++
  "response_tokens: " ++ toString response_tokens ++ "\t" ++
  "cost: " ++ format2 cost

/-- The function `calculate_cost(service, model)` of `_models.py` lines
160-188: raise `ValueError` for a service outside `MODELS`, pick that
service's module counters, look the model up in the price table without a
guard (a miss raises `KeyError(model)`), and return the formatted summary.
The function only reads the shared counters; the embedding returns the
state to make that frame condition statable. -/
def calculate_cost (st : UsageState) (service model : String) :
    Except PyError (String × UsageState) :=
  if !(MODELS_services.contains service) then
    Except.error (PyError.valueError ("Unknown service: " ++ service))
  else
    let c := countersFor st service
    match MODEL_COSTS service model with
    | none => Except.error (PyError.keyError model)
    | some (prompt_rate, response_rate) =>
        let cost : ℚ :=
          (prompt_rate * c.prompt_tokens + response_rate * c.response_tokens) / 1000000
        Except.ok (costSummary c.prompt_tokens c.response_tokens cost, st)

/-- State of an `AWSClientConnectionPool` (`_connpool.py` lines 42-86):
`queue` is the `asyncio.Queue` of idle client handles (front = next to be
got), `closed` records, in order, every handle whose `close()` has been
awaited.  Handles are identified by `Nat` ids. -/
structure AWSPoolState where
  queue : List Nat
  closed : List Nat
  deriving Repr, DecidableEq

/-- The `close` method (`_connpool.py` lines 71-76): drain the queue,
awaiting `client.close()` on each handle got from it. -/
def poolClose (st : AWSPoolState) : AWSPoolState :=
  { queue := [], closed := st.closed ++ st.queue }

/-- The `acquire` method (`_connpool.py` lines 78-79): `await
self.pool.get()` — returns `none` when the queue is empty (the caller would
block). -/
def poolAcquire (st : AWSPoolState) : Option (Nat × AWSPoolState) :=
  match st.queue with
  | [] => none
  | c :: rest => some (c, { st with queue := rest })

/-- The `release` method (`_connpool.py` lines 81-82): `await
self.pool.put(client)` — enqueues the handle at the back. -/
def poolRelease (client : Nat) (st : AWSPoolState) : AWSPoolState :=
  { st with queue := st.queue ++ [client] }

/-- Every trace the retry loop produces consists of attempts each
immediately preceded by exactly one acquisition of the estimated cost. -/
theorem retryLoopGo_wellAcquired {α : Type} (model : String) (cost : Nat)
    (outs : List (AttemptOutcome α)) (retries : Nat) :
    wellAcquired cost (retryLoopGo model cost outs retries).1 = true := by
  induction outs generalizing retries with
  | nil =>
      rw [retryLoopGo.eq_def]
      split <;> simp [wellAcquired]
  | cons o rest ih =>
      rw [retryLoopGo.eq_def]
      split
      · cases o with
        | ok r => simp [wellAcquired]
        | transient => simp [wellAcquired, ih]
        | fatal msg => simp [wellAcquired]
      · simp [wellAcquired]

/-- Every acquisition the retry loop performs is for exactly the estimated
cost. -/
theorem retryLoopGo_acquiresOnly {α : Type} (model : String) (cost : Nat)
    (outs : List (AttemptOutcome α)) (retries : Nat) :
    acquiresOnly cost (retryLoopGo model cost outs retries).1 = true := by
  induction outs generalizing retries with
  | nil =>
      rw [retryLoopGo.eq_def]
      split <;> simp [acquiresOnly]
  | cons o rest ih =>
      rw [retryLoopGo.eq_def]
      split
      · cases o with
        | ok r => simp [acquiresOnly]
        | transient => simp [acquiresOnly, ih]
        | fatal msg => simp [acquiresOnly]
      · simp [acquiresOnly]

/-- Once the `retries` counter has reached `MAX_RETRIES`, the loop raises
without looking at any further outcome. -/
theorem retryLoopGo_at_cap {α : Type} (model : String) (cost : Nat)
    (outs : List (AttemptOutcome α)) :
    retryLoopGo model cost outs 3 = ([], some (ChatOutcome.exhausted model 3)) := by
  rw [retryLoopGo.eq_def]
  simp [MAX_RETRIES]

/-- C1: evaluation of `ModelContext.chat` for an OpenAI-service context at a
concrete input.  A non-empty `json_start` is logged as unsupported (the
`true` flag), dropped from the request, and the raw completion `"ok"` is
returned without it — but the request consists of TWO system-role messages:
the prompt is sent with role `"system"`, not `"user"` as the claim states. -/
theorem openai_chat_sends_prompt_with_system_role :
    modelContextChatOpenAI (fun s => s.data.map Char.toNat) "gpt-4-turbo-2024-04-09"
        "s" "p" "x" ⟨0, 0⟩ [AttemptOutcome.ok ⟨some ⟨1, 2⟩, ["ok"]⟩]
      = (true,
         [{ role := "system", content := "s" }, { role := "system", content := "p" }],
         ([Event.acquire 2, Event.attempt],
          some (Except.ok ("ok", ⟨1, 2⟩, false)))) := rfl

/-- C2: on each of the three adapters, three consecutive transient failures
make the chat call raise `RuntimeError("Failed to connect to <model> after 3
retries")`, with exactly 3 attempts issued and no 4th attempt regardless of
what further outcomes the environment would have supplied. -/
theorem chat_three_transient_failures_exhaust_retries
    (encode : String → List Nat) (m sys pr js : String) (stO stA stN : Counters)
    (restO : List (AttemptOutcome OpenAIResponse))
    (restA : List (AttemptOutcome (Option AWSResponse)))
    (restN : List (AttemptOutcome AnthropicResponse)) :
    ((openaiChat encode m sys pr stO (AttemptOutcome.transient :: AttemptOutcome.transient
          :: AttemptOutcome.transient :: restO)).2
        = some (Except.error (PyError.runtimeError (exhaustedMessage m 3)))
      ∧ countAttempts (openaiChat encode m sys pr stO (AttemptOutcome.transient
          :: AttemptOutcome.transient :: AttemptOutcome.transient :: restO)).1 = 3)
  ∧ ((awsChat m sys pr js stA (AttemptOutcome.transient :: AttemptOutcome.transient
          :: AttemptOutcome.transient :: restA)).2
        = some (Except.error (PyError.runtimeError (exhaustedMessage m 3)))
      ∧ countAttempts (awsChat m sys pr js stA (AttemptOutcome.transient
          :: AttemptOutcome.transient :: AttemptOutcome.transient :: restA)).1 = 3)
  ∧ ((anthropicChat m sys pr js stN (AttemptOutcome.transient :: AttemptOutcome.transient
          :: AttemptOutcome.transient :: restN)).2
        = some (Except.error (PyError.runtimeError (exhaustedMessage m 3)))
      ∧ countAttempts (anthropicChat m sys pr js stN (AttemptOutcome.transient
          :: AttemptOutcome.transient :: AttemptOutcome.transient :: restN)).1 = 3)
  ∧ exhaustedMessage "claude-3-opus-20240229" 3
      = "Failed to connect to claude-3-opus-20240229 after 3 retries" := by
  refine ⟨⟨?_, ?_⟩, ⟨?_, ?_⟩, ⟨?_, ?_⟩, rfl⟩ <;>
    simp [openaiChat, awsChat, anthropicChat, retryLoopGo, MAX_RETRIES, countAttempts,
      retryLoopGo_at_cap]

/-- C3 counterexample: a chat call on the Anthropic adapter whose response
carries extractable text content (`"ok"`) but no usage fields does NOT
succeed — the unguarded counter update raises `AttributeError`. -/
theorem anthropic_missing_usage_raises :
    (anthropicChat "claude-3-haiku-20240307" "s" "p" "" ⟨0, 0⟩
        [AttemptOutcome.ok ⟨none, [⟨"ok"⟩]⟩]).2
      = some (Except.error (PyError.attributeError "usage")) := rfl

/-- C3 amended: on the OpenAI and AWS adapters a response with extractable
text content but missing usage fields still succeeds, returns the generated
text, logs the missing counters as a warning (the `true` flag) and leaves
the token counters unchanged; the Anthropic adapter has no such guard and
fails with `AttributeError` on the same shape of response. -/
theorem missing_usage_nonfatal_openai_aws_fatal_anthropic
    (encode : String → List Nat) (m sys pr js content : String) (st : Counters)
    (restChoices : List String) (blocks : Option (List AWSContentBlock)) :
    ((openaiChat encode m sys pr st [AttemptOutcome.ok ⟨none, content :: restChoices⟩]).2
      = some (Except.ok (content, st, true)))
  ∧ ((awsChat m sys pr js st [AttemptOutcome.ok (some ⟨none, blocks⟩)]).2
      = some (Except.ok (js ++ awsExtractText (blocks.getD []), st, true)))
  ∧ ((anthropicChat m sys pr js st [AttemptOutcome.ok ⟨none, [⟨content⟩]⟩]).2
      = some (Except.error (PyError.attributeError "usage"))) := ⟨rfl, rfl, rfl⟩

/-- C5: on the AWS and Anthropic adapters, a successful chat call (after any
number `n ≤ 2` of transient failures) returns exactly the assistant prefix
`json_start` concatenated with the continuation extracted from the backend
response; in particular the Anthropic call with prefix `"\x7b\"a\":"`
against a backend returning `"ok\"\x7d"` yields exactly
`"\x7b\"a\":ok\"\x7d"`. -/
theorem chat_returns_prefix_plus_continuation
    (m sys pr js : String) (st : Counters) (n : Nat) (hn : n ≤ 2)
    (u : AnthropicUsage) (b : AnthropicBlock) (bs : List AnthropicBlock) (r : AWSResponse) :
    ((anthropicChat m sys pr js st
        (List.replicate n AttemptOutcome.transient ++ [AttemptOutcome.ok ⟨some u, b :: bs⟩])).2
      = some (Except.ok (js ++ b.text,
          { prompt_tokens := st.prompt_tokens + u.input_tokens,
            response_tokens := st.response_tokens + u.output_tokens })))
  ∧ ((awsChat m sys pr js st
        (List.replicate n AttemptOutcome.transient ++ [AttemptOutcome.ok (some r)])).2
      = some (Except.ok (awsPostProcess js st r)))
  ∧ (awsPostProcess js st r).1 = js ++ awsExtractText (r.content.getD [])
  ∧ ((anthropicChat "claude-3-haiku-20240307" "s" "p" "\x7b\"a\":" st
        [AttemptOutcome.ok ⟨some u, [⟨"ok\"\x7d"⟩]⟩]).2
      = some (Except.ok ("\x7b\"a\":ok\"\x7d",
          { prompt_tokens := st.prompt_tokens + u.input_tokens,
            response_tokens := st.response_tokens + u.output_tokens }))) := by
  interval_cases n <;> exact ⟨rfl, rfl, rfl, rfl⟩

/-- C5 witness: the theorem instantiated at one transient failure before
success and a concrete backend response. -/
theorem chat_returns_prefix_plus_continuation_witness :
    ((anthropicChat "claude-3-haiku-20240307" "s" "p" "\x7b\"a\":" ⟨0, 0⟩
        (List.replicate 1 AttemptOutcome.transient
          ++ [AttemptOutcome.ok ⟨some ⟨7, 9⟩, [⟨"ok\"\x7d"⟩]⟩])).2
      = some (Except.ok ("\x7b\"a\":ok\"\x7d",
          { prompt_tokens := 0 + 7, response_tokens := 0 + 9 })))
  ∧ ((awsChat "claude-3-haiku-20240307" "s" "p" "\x7b\"a\":" ⟨0, 0⟩
        (List.replicate 1 AttemptOutcome.transient
          ++ [AttemptOutcome.ok (some ⟨some (1, 1), some []⟩)])).2
      = some (Except.ok (awsPostProcess "\x7b\"a\":" ⟨0, 0⟩ ⟨some (1, 1), some []⟩)))
  ∧ (awsPostProcess "\x7b\"a\":" ⟨0, 0⟩ ⟨some (1, 1), some []⟩).1
      = "\x7b\"a\":" ++ awsExtractText ((some ([] : List AWSContentBlock)).getD [])
  ∧ ((anthropicChat "claude-3-haiku-20240307" "s" "p" "\x7b\"a\":" ⟨0, 0⟩
        [AttemptOutcome.ok ⟨some ⟨7, 9⟩, [⟨"ok\"\x7d"⟩]⟩]).2
      = some (Except.ok ("\x7b\"a\":ok\"\x7d",
          { prompt_tokens := 0 + 7, response_tokens := 0 + 9 }))) :=
  chat_returns_prefix_plus_continuation "claude-3-haiku-20240307" "s" "p" "\x7b\"a\":"
    ⟨0, 0⟩ 1 (by decide) ⟨7, 9⟩ ⟨"ok\"\x7d"⟩ [] ⟨some (1, 1), some []⟩

/-- C4 counterexample: the distinct OpenAI aliases `"gpt-3.5"` and
`"ft-events-1"` are bound to the very same request-limiter instance and the
very same token-limiter instance. -/
theorem openai_aliases_share_limiter_instances :
    RATE_LIMITERS "OpenAI" "gpt-3.5" = RATE_LIMITERS "OpenAI" "ft-events-1"
  ∧ TOKEN_LIMITERS "OpenAI" "gpt-3.5" = TOKEN_LIMITERS "OpenAI" "ft-events-1"
  ∧ ("gpt-3.5" : String) ≠ "ft-events-1" := by
  refine ⟨rfl, rfl, ?_⟩
  decide

/-- C4 amended: two aliases of the same provider are bound to the same
request-limiter (resp. token-limiter) instance exactly when they are equal
or both belong to OpenAI's gpt-3.5 family (`"gpt-3.5"` and the six
fine-tuned aliases), which shares the module-level `gpt_3_5_turbo_rl` and
`gpt_3_5_turbo` instances; every other (provider, alias) pair owns its own
two instances. -/
theorem limiter_sharing_exactly_gpt35_family :
    (MODELS_services.all fun s =>
      (MODELS_aliases s).all fun m1 =>
        (MODELS_aliases s).all fun m2 =>
          (decide (RATE_LIMITERS s m1 = RATE_LIMITERS s m2)
              == (m1 == m2 || (s == "OpenAI" && sharedOpenAIAliases.contains m1
                    && sharedOpenAIAliases.contains m2)))
          && (decide (TOKEN_LIMITERS s m1 = TOKEN_LIMITERS s m2)
              == (m1 == m2 || (s == "OpenAI" && sharedOpenAIAliases.contains m1
                    && sharedOpenAIAliases.contains m2)))) = true := by
  decide

/-- C6 counterexample: the AWS estimated token cost is not a function of
`system` and `prompt` only — two calls with identical system and prompt but
different assistant prefixes acquire different amounts. -/
theorem aws_estimate_depends_on_json_start :
    awsEstimatedTokens "" "" "" = 0 ∧ awsEstimatedTokens "" "" "xxxxx" = 1
  ∧ (awsChat "m" "" "" "" ⟨0, 0⟩ [AttemptOutcome.ok (some ⟨some (1, 1), some []⟩)]).1
      = [Event.acquire 0, Event.attempt]
  ∧ (awsChat "m" "" "" "xxxxx" ⟨0, 0⟩ [AttemptOutcome.ok (some ⟨some (1, 1), some []⟩)]).1
      = [Event.acquire 1, Event.attempt] := ⟨rfl, rfl, rfl, rfl⟩

/-- C6 amended: every token-limiter acquisition of a chat call is for the
adapter's estimated cost, which is the exact tokenizer encoding length of
`system` plus that of `prompt` for OpenAI,
`(len(system) + len(prompt) + 4) // 5` for Anthropic, and
`(len(system) + len(prompt) + len(json_start) + 4) // 5` — also a function
of the assistant prefix — for AWS. -/
theorem estimated_token_cost_per_adapter
    (encode : String → List Nat) (m sys pr js : String) (stO stA stN : Counters)
    (outsO : List (AttemptOutcome OpenAIResponse))
    (outsA : List (AttemptOutcome (Option AWSResponse)))
    (outsN : List (AttemptOutcome AnthropicResponse)) :
    openaiEstimatedTokens encode sys pr = (encode sys).length + (encode pr).length
  ∧ anthropicEstimatedTokens sys pr = (sys.length + pr.length + 4) / 5
  ∧ awsEstimatedTokens sys pr js = (sys.length + pr.length + js.length + 4) / 5
  ∧ acquiresOnly ((encode sys).length + (encode pr).length)
      (openaiChat encode m sys pr stO outsO).1 = true
  ∧ acquiresOnly ((sys.length + pr.length + 4) / 5)
      (anthropicChat m sys pr js stN outsN).1 = true
  ∧ acquiresOnly ((sys.length + pr.length + js.length + 4) / 5)
      (awsChat m sys pr js stA outsA).1 = true :=
  ⟨rfl, rfl, rfl,
   retryLoopGo_acquiresOnly m (openaiEstimatedTokens encode sys pr) outsO 0,
   retryLoopGo_acquiresOnly m (anthropicEstimatedTokens sys pr) outsN 0,
   retryLoopGo_acquiresOnly m (awsEstimatedTokens sys pr js) outsA 0⟩

/-- C7: on each of the three adapters and for every outcome sequence, the
trace of a chat call acquires the token-rate limiter for the estimated cost
exactly once immediately before every attempt, including before every retry
attempt after a transient failure. -/
theorem token_limiter_acquired_before_every_attempt
    (encode : String → List Nat) (m sys pr js : String) (stO stA stN : Counters)
    (outsO : List (AttemptOutcome OpenAIResponse))
    (outsA : List (AttemptOutcome (Option AWSResponse)))
    (outsN : List (AttemptOutcome AnthropicResponse)) :
    wellAcquired (openaiEstimatedTokens encode sys pr)
      (openaiChat encode m sys pr stO outsO).1 = true
  ∧ wellAcquired (awsEstimatedTokens sys pr js) (awsChat m sys pr js stA outsA).1 = true
  ∧ wellAcquired (anthropicEstimatedTokens sys pr)
      (anthropicChat m sys pr js stN outsN).1 = true :=
  ⟨retryLoopGo_wellAcquired m (openaiEstimatedTokens encode sys pr) outsO 0,
   retryLoopGo_wellAcquired m (awsEstimatedTokens sys pr js) outsA 0,
   retryLoopGo_wellAcquired m (anthropicEstimatedTokens sys pr) outsN 0⟩

/-- C8: for every known service and every model with a price-table entry,
`calculate_cost` returns the formatted summary of the service's accumulated
prompt and response token counts with
`cost = (prompt_rate * prompt_tokens + response_rate * response_tokens) / 1_000_000`
from the static price table, and returns the shared state unchanged. -/
theorem calculate_cost_formula_and_readonly
    (st : UsageState) (service model : String) (prompt_rate response_rate : ℚ)
    (hs : MODELS_services.contains service = true)
    (hc : MODEL_COSTS service model = some (prompt_rate, response_rate)) :
    calculate_cost st service model =
      Except.ok (costSummary (countersFor st service).prompt_tokens
          (countersFor st service).response_tokens
          ((prompt_rate * (countersFor st service).prompt_tokens
            + response_rate * (countersFor st service).response_tokens) / 1000000), st) := by
  have hs2 : service ∈ MODELS_services := by simpa using hs
  simp [calculate_cost, hs2, hc]

/-- C8 witness: 100 accumulated prompt tokens and 200 response tokens on
OpenAI's gpt-4 at rates (10, 30) dollars per million. -/
theorem calculate_cost_formula_and_readonly_witness :
    calculate_cost ⟨⟨100, 200⟩, ⟨0, 0⟩, ⟨0, 0⟩⟩ "OpenAI" "gpt-4" =
      Except.ok (costSummary (countersFor ⟨⟨100, 200⟩, ⟨0, 0⟩, ⟨0, 0⟩⟩ "OpenAI").prompt_tokens
          (countersFor ⟨⟨100, 200⟩, ⟨0, 0⟩, ⟨0, 0⟩⟩ "OpenAI").response_tokens
          ((10 * (countersFor ⟨⟨100, 200⟩, ⟨0, 0⟩, ⟨0, 0⟩⟩ "OpenAI").prompt_tokens
            + 30 * (countersFor ⟨⟨100, 200⟩, ⟨0, 0⟩, ⟨0, 0⟩⟩ "OpenAI").response_tokens) / 1000000),
        ⟨⟨100, 200⟩, ⟨0, 0⟩, ⟨0, 0⟩⟩) :=
  calculate_cost_formula_and_readonly ⟨⟨100, 200⟩, ⟨0, 0⟩, ⟨0, 0⟩⟩ "OpenAI" "gpt-4"
    10 30 (by decide) (by rfl)

/-- C9: `calculate_cost` validates only the service name — for a service in
the catalog but a model absent from its price table it fails with
`KeyError(model)` from the unguarded lookup, while an unknown service fails
with `ValueError`. -/
theorem calculate_cost_unknown_model_keyerror
    (st st2 : UsageState) (service model bad model2 : String)
    (hs : MODELS_services.contains service = true)
    (hm : MODEL_COSTS service model = none)
    (hb : MODELS_services.contains bad = false) :
    calculate_cost st service model = Except.error (PyError.keyError model)
  ∧ calculate_cost st2 bad model2
      = Except.error (PyError.valueError ("Unknown service: " ++ bad)) := by
  have hs2 : service ∈ MODELS_services := by simpa using hs
  have hb2 : bad ∉ MODELS_services := by simpa using hb
  constructor
  · simp [calculate_cost, hs2, hm]
  · simp [calculate_cost, hb2]

/-- C9 witness: `"sonnet"` is an AWS/Anthropic alias absent from OpenAI's
price table, and `"Gemini"` is not a known service. -/
theorem calculate_cost_unknown_model_keyerror_witness :
    calculate_cost ⟨⟨0, 0⟩, ⟨0, 0⟩, ⟨0, 0⟩⟩ "OpenAI" "sonnet"
      = Except.error (PyError.keyError "sonnet")
  ∧ calculate_cost ⟨⟨0, 0⟩, ⟨0, 0⟩, ⟨0, 0⟩⟩ "Gemini" "haiku"
      = Except.error (PyError.valueError ("Unknown service: " ++ "Gemini")) :=
  calculate_cost_unknown_model_keyerror ⟨⟨0, 0⟩, ⟨0, 0⟩, ⟨0, 0⟩⟩ ⟨⟨0, 0⟩, ⟨0, 0⟩, ⟨0, 0⟩⟩
    "OpenAI" "sonnet" "Gemini" "haiku" (by decide) (by rfl) (by decide)

/-- C10: `close()` closes exactly the handles in the pool's queue at call
time — a handle acquired and not yet released is not closed — and a
subsequent `release` of that handle re-enqueues it, still un-closed, into
the drained pool. -/
theorem pool_close_spares_acquired_handle
    (c : Nat) (rest closed0 : List Nat) (hc : c ∉ rest) (hc0 : c ∉ closed0) :
    poolAcquire ⟨c :: rest, closed0⟩ = some (c, ⟨rest, closed0⟩)
  ∧ poolClose ⟨rest, closed0⟩ = ⟨[], closed0 ++ rest⟩
  ∧ c ∉ (poolClose ⟨rest, closed0⟩).closed
  ∧ poolRelease c (poolClose ⟨rest, closed0⟩) = ⟨[c], closed0 ++ rest⟩
  ∧ c ∉ (poolRelease c (poolClose ⟨rest, closed0⟩)).closed := by
  refine ⟨rfl, rfl, ?_, rfl, ?_⟩ <;>
    simp [poolClose, poolRelease, List.mem_append, hc, hc0]

/-- C10 witness: a pool holding handles 0, 1, 2; handle 0 is acquired, the
pool is closed (closing exactly 1 and 2), and handle 0 is released back. -/
theorem pool_close_spares_acquired_handle_witness :
    poolAcquire ⟨0 :: [1, 2], []⟩ = some (0, ⟨[1, 2], []⟩)
  ∧ poolClose ⟨[1, 2], []⟩ = ⟨[], [] ++ [1, 2]⟩
  ∧ 0 ∉ (poolClose ⟨[1, 2], []⟩).closed
  ∧ poolRelease 0 (poolClose ⟨[1, 2], []⟩) = ⟨[0], [] ++ [1, 2]⟩
  ∧ 0 ∉ (poolRelease 0 (poolClose ⟨[1, 2], []⟩)).closed :=
  pool_close_spares_acquired_handle 0 [1, 2] [] (by decide) (by decide)

end NoNews
